import Mathlib

/-
Verification of the Arabic Tutor backend (src/app.py): a Flask service that
proxies chat requests to a completion provider, gates access by a daily
free-tier quota of 10 requests, and checks subscriptions through a payment
provider (Stripe).

The embedding is shallow: the in-memory dict `user_usage` becomes an
association list with Python-dict get/set semantics; the external Stripe
and completion calls become explicit parameters (an environment of
`Except`-valued lookups and a completion outcome), and each handler also
returns the list of external calls it performed, so that properties about
"the provider is not contacted" can be stated.
-/

set_option autoImplicit false

namespace ArabicTutor

/-- A customer record as returned by `stripe.Customer.list` (only the `id`
field is consumed by the code). -/
structure Customer where
  id : String
  deriving DecidableEq, Repr

/-- An active subscription record as returned by `stripe.Subscription.list`
(only the `status` field is consumed by the code). -/
structure Subscription where
  status : String
  deriving DecidableEq, Repr

/-- The external calls a handler can make: the two Stripe lookups used by
`check_user_has_subscription` / `check_subscription`, the Stripe checkout
session creation, and the completion-provider call
`client.messages.create`. -/
inductive ExtCall where
  | stripeCustomerList (email : String)
  | stripeSubscriptionList (customerId : String)
  | stripeCheckoutCreate (priceId : String)
  | completionCreate
  deriving DecidableEq, Repr

/-- The environment of external Stripe lookups.  `customerList email`
models `stripe.Customer.list(email=email, limit=1).data` and
`subscriptionList cid` models
`stripe.Subscription.list(customer=cid, status='active', limit=1).data`;
an `Except.error` models a raised exception. -/
structure StripeEnv where
  customerList : String → Except String (List Customer)
  subscriptionList : String → Except String (List Subscription)

/-- The in-memory mapping `user_usage`, keyed by "email:YYYY-MM-DD". -/
abbrev Usage := List (String × Nat)

/-- `user_usage.get(key, 0)`. -/
def usageGet : Usage → String → Nat
  | [], _ => 0
  | (k', v) :: rest, k => if k' = k then v else usageGet rest k

/-- `user_usage[key] = v`: replace in place when the key exists, append
otherwise (Python dict assignment). -/
def usageSet : Usage → String → Nat → Usage
  | [], k, v => [(k, v)]
  | (k', v') :: rest, k, v =>
      if k' = k then (k, v) :: rest else (k', v') :: usageSet rest k v

/-- One chat message (role-tagged content). -/
structure Message where
  role : String
  content : String
  deriving DecidableEq, Repr

/-- The parsed body of a POST /api/chat request; `user_email = none` models
a body that omits the `user_email` field (the code then defaults it to
"anonymous" via `data.get('user_email', 'anonymous')`). -/
structure ChatRequest where
  messages : List Message
  system : String
  max_tokens : Nat
  user_email : Option String
  deriving DecidableEq, Repr

/-- The outcome of `client.messages.create`: a successful assistant text,
an `anthropic.APIError`, or any other raised exception. -/
inductive CompletionOutcome where
  | ok (text : String)
  | apiError (msg : String)
  | failure (msg : String)
  deriving DecidableEq, Repr

/-- The `remaining_messages` value in a response body: a number or the
string "unlimited". -/
inductive Remaining where
  | num (n : Nat)
  | unlimited
  deriving DecidableEq, Repr

/-- The response of the /api/chat handler. -/
inductive ChatResponse where
  | noMessages
  | limitReached
  | ok (message : String) (remaining : Remaining)
  | apiError (msg : String)
  | serverError (msg : String)
  deriving DecidableEq, Repr

/-- The HTTP status code of a chat response. -/
def ChatResponse.statusCode : ChatResponse → Nat
  | .noMessages => 400
  | .limitReached => 429
  | .ok _ _ => 200
  | .apiError _ => 500
  | .serverError _ => 500

/-- The `remaining_messages` field of a chat response body, `none` when the
body has no such key (the 400 and 500 bodies). -/
def ChatResponse.remainingMessages : ChatResponse → Option Remaining
  | .noMessages => none
  | .limitReached => some (.num 0)
  | .ok _ r => some r
  | .apiError _ => none
  | .serverError _ => none

/-- The `upgrade_required` flag of a chat response body (present and true
only in the 429 body). -/
def ChatResponse.upgradeRequired : ChatResponse → Bool
  | .limitReached => true
  | _ => false

/-- Result of running the chat handler: its response, the usage mapping
after the request, and the external calls performed. -/
structure ChatOutcome where
  response : ChatResponse
  usage : Usage
  calls : List ExtCall
  deriving DecidableEq, Repr

/-- `check_user_has_subscription(email)` together with the Stripe calls it
performs.  Returns False for "anonymous" without any lookup; any raised
exception in either lookup yields False. -/
def check_user_has_subscription (env : StripeEnv) (email : String) :
    Bool × List ExtCall :=
  if email = "anonymous" then (false, [])
  else
    match env.customerList email with
    | .error _ => (false, [.stripeCustomerList email])
    | .ok [] => (false, [.stripeCustomerList email])
    | .ok (customer :: _) =>
      match env.subscriptionList customer.id with
      | .error _ =>
          (false, [.stripeCustomerList email, .stripeSubscriptionList customer.id])
      | .ok subs =>
          (!subs.isEmpty,
           [.stripeCustomerList email, .stripeSubscriptionList customer.id])

/-- Builds the tail of the chat handler from the completion outcome: 200
with the computed `remaining_messages` on success, 500 otherwise (the two
`except` clauses, with their message prefixes). -/
def completionResponse (remaining : Remaining) :
    CompletionOutcome → ChatResponse
  | .ok text => .ok text remaining
  | .apiError m => .apiError ("Anthropic API error: " ++ m)
  | .failure m => .serverError ("Server error: " ++ m)

/-- The /api/chat handler.  `today` is `datetime.now().strftime('%Y-%m-%d')`
and `completion` is the outcome `client.messages.create` would have. -/
def chat (env : StripeEnv) (completion : CompletionOutcome) (today : String)
    (req : ChatRequest) (user_usage : Usage) : ChatOutcome :=
  let user_email := req.user_email.getD "anonymous"
  if req.messages = [] then
    ⟨.noMessages, user_usage, []⟩
  else
    let sub := check_user_has_subscription env user_email
    if sub.1 = false ∧ user_email ≠ "anonymous" then
      let usage_key := user_email ++ ":" ++ today
      let current_usage := usageGet user_usage usage_key
      if 10 ≤ current_usage then
        ⟨.limitReached, user_usage, sub.2⟩
      else
        ⟨completionResponse (.num (10 - (current_usage + 1))) completion,
         usageSet user_usage usage_key (current_usage + 1),
         sub.2 ++ [.completionCreate]⟩
    else
      ⟨completionResponse .unlimited completion, user_usage,
       sub.2 ++ [.completionCreate]⟩

/-- The response of the /api/check-subscription handler.  In `body`,
`subscription_status = none` means the JSON key is absent;
`some none` means the key is present with value `null`. -/
inductive SubscriptionResponse where
  | body (has_subscription : Bool) (subscription_status : Option (Option String))
      (remaining_messages : Remaining)
  | error (msg : String)
  deriving DecidableEq, Repr

/-- The `remaining_messages` field of a check-subscription response body. -/
def SubscriptionResponse.remainingMessages :
    SubscriptionResponse → Option Remaining
  | .body _ _ r => some r
  | .error _ => none

/-- The /api/check-subscription handler.  `email = none` (or the empty
string) models a body whose `email` is missing or falsy. -/
def check_subscription (env : StripeEnv) (today : String)
    (email : Option String) (user_usage : Usage) :
    SubscriptionResponse × List ExtCall :=
  let user_email := email.getD ""
  if user_email = "" then
    (.body false none (.num 10), [])
  else
    match env.customerList user_email with
    | .error m => (.error m, [.stripeCustomerList user_email])
    | .ok [] =>
        let usage_key := user_email ++ ":" ++ today
        let current_usage := usageGet user_usage usage_key
        (.body false none (.num (max 0 (10 - current_usage))),
         [.stripeCustomerList user_email])
    | .ok (customer :: _) =>
      match env.subscriptionList customer.id with
      | .error m =>
          (.error m,
           [.stripeCustomerList user_email, .stripeSubscriptionList customer.id])
      | .ok [] =>
          (.body false (some none) (.num 0),
           [.stripeCustomerList user_email, .stripeSubscriptionList customer.id])
      | .ok (s :: _) =>
          (.body true (some (some s.status)) .unlimited,
           [.stripeCustomerList user_email, .stripeSubscriptionList customer.id])

/-- The two configured price identifiers, `none` when the environment
variable is unset. -/
structure CheckoutConfig where
  stripePricePremium : Option String
  stripePricePremiumVoice : Option String
  deriving DecidableEq, Repr

/-- The `price_ids` dict lookup: `price_ids.get(plan)`. -/
def price_ids (cfg : CheckoutConfig) (plan : String) : Option String :=
  if plan = "premium" then cfg.stripePricePremium
  else if plan = "premium_voice" then cfg.stripePricePremiumVoice
  else none

/-- Python truthiness of `price_id` in `if not price_id`: falsy when absent
or the empty string. -/
def pyFalsyStr : Option String → Bool
  | none => true
  | some s => s.isEmpty

/-- The response of the /api/create-checkout handler. -/
inductive CheckoutResponse where
  | invalidPlan
  | ok (url : String)
  | error (msg : String)
  deriving DecidableEq, Repr

/-- The HTTP status code of a create-checkout response. -/
def CheckoutResponse.statusCode : CheckoutResponse → Nat
  | .invalidPlan => 400
  | .ok _ => 200
  | .error _ => 500

/-- The /api/create-checkout handler.  `createSession pid email` models
`stripe.checkout.Session.create(...)` for price `pid` and customer email
`email`; `plan = none` models a body without a `plan` key (the code then
defaults it to "premium"). -/
def create_checkout (cfg : CheckoutConfig)
    (createSession : String → Option String → Except String String)
    (email : Option String) (plan : Option String) :
    CheckoutResponse × List ExtCall :=
  let planSelected := plan.getD "premium"
  let price_id := price_ids cfg planSelected
  if pyFalsyStr price_id then
    (.invalidPlan, [])
  else
    let pid := price_id.getD ""
    match createSession pid email with
    | .ok url => (.ok url, [.stripeCheckoutCreate pid])
    | .error m => (.error m, [.stripeCheckoutCreate pid])

/-- The usage mapping after `n` consecutive chat requests with the same
request body, environment and date, starting from the empty mapping. -/
def usageAfter (env : StripeEnv) (completion : CompletionOutcome)
    (today : String) (req : ChatRequest) : Nat → Usage
  | 0 => []
  | n + 1 =>
      (chat env completion today req
        (usageAfter env completion today req n)).usage

/-- Running a list of chat requests (each with its completion outcome) in
order, threading the usage mapping; returns the final mapping and the list
of responses. -/
def chatFold (env : StripeEnv) (today : String) :
    List (ChatRequest × CompletionOutcome) → Usage → Usage × List ChatResponse
  | [], u => (u, [])
  | (req, comp) :: rest, u =>
      let out := chat env comp today req u
      let next := chatFold env today rest out.usage
      (next.1, out.response :: next.2)

/-! ### Basic lemmas about the usage mapping and the handler branches -/

theorem usageGet_usageSet_self (u : Usage) (k : String) (v : Nat) :
    usageGet (usageSet u k v) k = v := by
  induction u with
  | nil => simp [usageSet, usageGet]
  | cons p rest ih =>
    obtain ⟨k0, v0⟩ := p
    by_cases h : k0 = k
    · simp [usageSet, usageGet, h]
    · simp [usageSet, usageGet, h, ih]

theorem usageGet_usageSet_ne (u : Usage) (k k' : String) (v : Nat)
    (h : k ≠ k') : usageGet (usageSet u k v) k' = usageGet u k' := by
  induction u with
  | nil => simp [usageSet, usageGet, h]
  | cons p rest ih =>
    obtain ⟨k0, v0⟩ := p
    by_cases h0 : k0 = k
    · subst h0
      simp [usageSet, usageGet, h]
    · simp [usageSet, usageGet, h0, ih]

/-- The subscription helper never contacts the completion provider. -/
theorem completionCreate_not_mem_subCalls (env : StripeEnv) (email : String) :
    ExtCall.completionCreate ∉ (check_user_has_subscription env email).2 := by
  unfold check_user_has_subscription
  by_cases h : email = "anonymous"
  · simp [h]
  · rw [if_neg h]
    cases hc : env.customerList email with
    | error m => simp
    | ok l =>
      cases l with
      | nil => simp
      | cons c rest =>
        cases hs : env.subscriptionList c.id with
        | error m => simp [hs]
        | ok subs => simp [hs]

/-- Gated under-limit branch of the chat handler: non-subscribed,
non-anonymous, count below 10. -/
theorem chat_gated_under (env : StripeEnv) (completion : CompletionOutcome)
    (today : String) (req : ChatRequest) (u : Usage) (e : String)
    (he : req.user_email = some e) (hne : e ≠ "anonymous")
    (hmsg : req.messages ≠ [])
    (hsub : (check_user_has_subscription env e).1 = false)
    (hlt : usageGet u (e ++ ":" ++ today) < 10) :
    chat env completion today req u =
      ⟨completionResponse (.num (10 - (usageGet u (e ++ ":" ++ today) + 1)))
          completion,
        usageSet u (e ++ ":" ++ today) (usageGet u (e ++ ":" ++ today) + 1),
        (check_user_has_subscription env e).2 ++ [.completionCreate]⟩ := by
  have hle : ¬ 10 ≤ usageGet u (e ++ ":" ++ today) := Nat.not_le.mpr hlt
  simp [chat, he, hmsg, hsub, hne, hle]

/-- Gated over-limit branch of the chat handler: non-subscribed,
non-anonymous, count at least 10. -/
theorem chat_gated_over (env : StripeEnv) (completion : CompletionOutcome)
    (today : String) (req : ChatRequest) (u : Usage) (e : String)
    (he : req.user_email = some e) (hne : e ≠ "anonymous")
    (hmsg : req.messages ≠ [])
    (hsub : (check_user_has_subscription env e).1 = false)
    (hge : 10 ≤ usageGet u (e ++ ":" ++ today)) :
    chat env completion today req u =
      ⟨.limitReached, u, (check_user_has_subscription env e).2⟩ := by
  simp [chat, he, hmsg, hsub, hne, hge]

/-- Anonymous branch of the chat handler: the gate is skipped entirely. -/
theorem chat_anonymous (env : StripeEnv) (completion : CompletionOutcome)
    (today : String) (req : ChatRequest) (u : Usage)
    (he : req.user_email.getD "anonymous" = "anonymous")
    (hmsg : req.messages ≠ []) :
    chat env completion today req u =
      ⟨completionResponse .unlimited completion, u, [.completionCreate]⟩ := by
  simp [chat, he, hmsg, check_user_has_subscription]

/-- Subscribed branch of the chat handler: the gate is skipped and the
calls are the subscription lookups plus the completion call. -/
theorem chat_subscribed (env : StripeEnv) (completion : CompletionOutcome)
    (today : String) (req : ChatRequest) (u : Usage)
    (hsub : (check_user_has_subscription env
        (req.user_email.getD "anonymous")).1 = true)
    (hmsg : req.messages ≠ []) :
    chat env completion today req u =
      ⟨completionResponse .unlimited completion, u,
        (check_user_has_subscription env
          (req.user_email.getD "anonymous")).2 ++ [.completionCreate]⟩ := by
  simp [chat, hmsg, hsub]

/-- After `n` gated requests from the empty mapping, the stored count is
`min n 10`. -/
theorem usageAfter_get (env : StripeEnv) (completion : CompletionOutcome)
    (today : String) (req : ChatRequest) (e : String)
    (he : req.user_email = some e) (hne : e ≠ "anonymous")
    (hmsg : req.messages ≠ [])
    (hsub : (check_user_has_subscription env e).1 = false) (n : Nat) :
    usageGet (usageAfter env completion today req n) (e ++ ":" ++ today)
      = min n 10 := by
  induction n with
  | zero => simp [usageAfter, usageGet]
  | succ n ih =>
    by_cases h : n < 10
    · rw [usageAfter,
        chat_gated_under env completion today req _ e he hne hmsg hsub
          (by rw [ih]; omega)]
      rw [usageGet_usageSet_self, ih]
      omega
    · rw [usageAfter,
        chat_gated_over env completion today req _ e he hne hmsg hsub
          (by rw [ih]; omega)]
      rw [ih]
      omega

/-! ### Concrete fixtures used by witnesses and counterexamples -/

/-- A Stripe environment in which no email has a customer record. -/
def env0 : StripeEnv where
  customerList := fun _ => .ok []
  subscriptionList := fun _ => .ok []

/-- A Stripe environment in which every email resolves to a customer with
an active subscription. -/
def envSub : StripeEnv where
  customerList := fun _ => .ok [⟨"cus_1"⟩]
  subscriptionList := fun _ => .ok [⟨"active"⟩]

/-- A Stripe environment whose customer lookup always raises. -/
def envErr : StripeEnv where
  customerList := fun _ => .error "network down"
  subscriptionList := fun _ => .error "network down"

/-- A Stripe environment with a customer record but no active
subscription. -/
def envCustomerNoSub : StripeEnv where
  customerList := fun _ => .ok [⟨"cus_2"⟩]
  subscriptionList := fun _ => .ok []

/-- A chat request from the free-tier user a@x.com. -/
def req0 : ChatRequest where
  messages := [⟨"user", "hello"⟩]
  system := ""
  max_tokens := 1024
  user_email := some "a@x.com"

/-! ### Claims -/

/-- Claim C1: for a non-subscribed, non-anonymous user on a given calendar
day, the Nth chat request with N ≤ 10 is admitted (the completion provider
is called) and the response reports remaining_messages = 10 − N, while the
11th and every later request that day is rejected with status 429 and
remaining_messages = 0, without reaching the completion provider. -/
theorem chat_daily_quota (env : StripeEnv) (today m e : String)
    (req : ChatRequest) (he : req.user_email = some e)
    (hne : e ≠ "anonymous") (hmsg : req.messages ≠ [])
    (hsub : (check_user_has_subscription env e).1 = false) (N : Nat) :
    (1 ≤ N → N ≤ 10 →
      (chat env (.ok m) today req
          (usageAfter env (.ok m) today req (N - 1))).response
        = .ok m (.num (10 - N)) ∧
      ExtCall.completionCreate ∈
        (chat env (.ok m) today req
          (usageAfter env (.ok m) today req (N - 1))).calls) ∧
    (11 ≤ N →
      (chat env (.ok m) today req
          (usageAfter env (.ok m) today req (N - 1))).response.statusCode
        = 429 ∧
      (chat env (.ok m) today req
          (usageAfter env (.ok m) today req (N - 1))).response.remainingMessages
        = some (.num 0) ∧
      ExtCall.completionCreate ∉
        (chat env (.ok m) today req
          (usageAfter env (.ok m) today req (N - 1))).calls) := by
  constructor
  · intro h1 h10
    have hget := usageAfter_get env (.ok m) today req e he hne hmsg hsub (N - 1)
    rw [chat_gated_under env (.ok m) today req _ e he hne hmsg hsub
      (by rw [hget]; omega)]
    constructor
    · rw [hget]
      have : min (N - 1) 10 + 1 = N := by omega
      rw [this]
      rfl
    · simp
  · intro h11
    have hget := usageAfter_get env (.ok m) today req e he hne hmsg hsub (N - 1)
    rw [chat_gated_over env (.ok m) today req _ e he hne hmsg hsub
      (by rw [hget]; omega)]
    exact ⟨rfl, rfl, completionCreate_not_mem_subCalls env e⟩

/-- Witness for C1: with no customer record, the 3rd request of the day is
admitted with 7 remaining and the 11th is rejected with 429. -/
theorem chat_daily_quota_witness :
    (chat env0 (.ok "hi") "2026-10-12" req0
        (usageAfter env0 (.ok "hi") "2026-10-12" req0 2)).response
      = .ok "hi" (.num 7) ∧
    (chat env0 (.ok "hi") "2026-10-12" req0
        (usageAfter env0 (.ok "hi") "2026-10-12" req0 10)).response.statusCode
      = 429 := by
  constructor
  · have h := (chat_daily_quota env0 "2026-10-12" "hi" "a@x.com" req0 rfl
      (by decide) (by decide) rfl 3).1 (by decide) (by decide)
    exact h.1
  · have h := (chat_daily_quota env0 "2026-10-12" "hi" "a@x.com" req0 rfl
      (by decide) (by decide) rfl 11).2 (by decide)
    exact h.1

/-- Claim C2: on the non-subscribed, non-anonymous, under-limit path the
usage counter is incremented before the completion provider is invoked, so
when the completion call fails (the handler returns 500) the stored count
for the day is still one higher than before the request. -/
theorem chat_increments_before_completion (env : StripeEnv) (today e : String)
    (req : ChatRequest) (u : Usage) (completion : CompletionOutcome)
    (he : req.user_email = some e) (hne : e ≠ "anonymous")
    (hmsg : req.messages ≠ [])
    (hsub : (check_user_has_subscription env e).1 = false)
    (hlt : usageGet u (e ++ ":" ++ today) < 10)
    (hfail : ∀ t, completion ≠ .ok t) :
    (chat env completion today req u).response.statusCode = 500 ∧
    usageGet (chat env completion today req u).usage (e ++ ":" ++ today)
      = usageGet u (e ++ ":" ++ today) + 1 := by
  rw [chat_gated_under env completion today req u e he hne hmsg hsub hlt]
  constructor
  · cases completion with
    | ok t => exact absurd rfl (hfail t)
    | apiError m => rfl
    | failure m => rfl
  · exact usageGet_usageSet_self u _ _

/-- Witness for C2: a fresh free-tier user whose completion call raises an
API error gets a 500 and still has a stored count of 1. -/
theorem chat_increments_before_completion_witness :
    (chat env0 (.apiError "overloaded") "2026-10-12" req0 []).response.statusCode
      = 500 ∧
    usageGet (chat env0 (.apiError "overloaded") "2026-10-12" req0 []).usage
      ("a@x.com" ++ ":" ++ "2026-10-12") = usageGet [] ("a@x.com" ++ ":" ++ "2026-10-12") + 1 :=
  chat_increments_before_completion env0 "2026-10-12" "a@x.com" req0 []
    (.apiError "overloaded") rfl (by decide) (by decide) rfl (by decide)
    (fun t h => by cases h)

/-- Claim C3 counterexample: a successful chat request with user identifier
"anonymous" DOES report remaining_messages = "unlimited" in that exact
form (the else branch at line 161 sets remaining = 'unlimited' and line
180 returns it), contradicting the claim that no such value is reported. -/
theorem anonymous_chat_counterexample :
    (chat env0 (.ok "hi") "2026-10-12"
        ⟨[⟨"user", "hello"⟩], "", 1024, some "anonymous"⟩
        []).response.remainingMessages
      = some Remaining.unlimited := by decide

/-- Claim C3 (amended): for every chat request whose user identifier is
"anonymous", the gate skips counting (the usage mapping is unchanged) and
no NUMERIC remaining value is ever reported; however a successful response
does report remaining_messages = "unlimited", the same form as for
subscribers. -/
theorem anonymous_chat_unmetered (env : StripeEnv)
    (completion : CompletionOutcome) (today : String) (req : ChatRequest)
    (u : Usage) (he : req.user_email.getD "anonymous" = "anonymous") :
    (chat env completion today req u).usage = u ∧
    (∀ n, (chat env completion today req u).response.remainingMessages
      ≠ some (.num n)) ∧
    (∀ t, completion = .ok t → req.messages ≠ [] →
      (chat env completion today req u).response = .ok t .unlimited) := by
  by_cases hm : req.messages = []
  · refine ⟨?_, ?_, ?_⟩
    · simp [chat, hm]
    · intro n
      simp [chat, hm, ChatResponse.remainingMessages]
    · intro t ht hmsg
      exact absurd hm hmsg
  · rw [chat_anonymous env completion today req u he hm]
    refine ⟨rfl, ?_, ?_⟩
    · intro n
      cases completion <;>
        simp [completionResponse, ChatResponse.remainingMessages]
    · intro t ht hmsg
      subst ht
      rfl

/-- Witness for amended C3: a concrete anonymous request leaves the usage
mapping unchanged and reports no numeric remaining value. -/
theorem anonymous_chat_unmetered_witness :
    (chat env0 (.ok "hi") "2026-10-12"
        ⟨[⟨"user", "hello"⟩], "", 1024, some "anonymous"⟩
        [("a@x.com:2026-10-12", 3)]).usage = [("a@x.com:2026-10-12", 3)] ∧
    (∀ n, (chat env0 (.ok "hi") "2026-10-12"
        ⟨[⟨"user", "hello"⟩], "", 1024, some "anonymous"⟩
        [("a@x.com:2026-10-12", 3)]).response.remainingMessages
      ≠ some (.num n)) ∧
    (∀ t, CompletionOutcome.ok "hi" = .ok t →
      ([⟨"user", "hello"⟩] : List Message) ≠ [] →
      (chat env0 (.ok "hi") "2026-10-12"
        ⟨[⟨"user", "hello"⟩], "", 1024, some "anonymous"⟩
        [("a@x.com:2026-10-12", 3)]).response = .ok t .unlimited) :=
  anonymous_chat_unmetered env0 (.ok "hi") "2026-10-12"
    ⟨[⟨"user", "hello"⟩], "", 1024, some "anonymous"⟩
    [("a@x.com:2026-10-12", 3)] rfl

/-- Claim C4: a chat request from a user with an active subscription is
admitted (the completion provider is called), a successful response
reports remaining_messages = "unlimited", and the stored usage mapping is
left unchanged. -/
theorem subscribed_chat_unlimited (env : StripeEnv)
    (completion : CompletionOutcome) (today : String) (req : ChatRequest)
    (u : Usage)
    (hsub : (check_user_has_subscription env
        (req.user_email.getD "anonymous")).1 = true)
    (hmsg : req.messages ≠ []) :
    (chat env completion today req u).usage = u ∧
    ExtCall.completionCreate ∈ (chat env completion today req u).calls ∧
    (∀ t, completion = .ok t →
      (chat env completion today req u).response = .ok t .unlimited) := by
  rw [chat_subscribed env completion today req u hsub hmsg]
  refine ⟨rfl, ?_, ?_⟩
  · simp
  · intro t ht
    subst ht
    rfl

/-- Witness for C4: a subscribed user's request leaves the usage mapping
unchanged, reaches the provider, and gets remaining = "unlimited". -/
theorem subscribed_chat_unlimited_witness :
    (chat envSub (.ok "hi") "2026-10-12" req0
        [("a@x.com:2026-10-12", 9)]).usage = [("a@x.com:2026-10-12", 9)] ∧
    ExtCall.completionCreate ∈
      (chat envSub (.ok "hi") "2026-10-12" req0
        [("a@x.com:2026-10-12", 9)]).calls ∧
    (∀ t, CompletionOutcome.ok "hi" = .ok t →
      (chat envSub (.ok "hi") "2026-10-12" req0
        [("a@x.com:2026-10-12", 9)]).response = .ok t .unlimited) :=
  subscribed_chat_unlimited envSub (.ok "hi") "2026-10-12" req0
    [("a@x.com:2026-10-12", 9)] rfl (by decide)

/-- Claim C5: over any sequence of chat requests whose user identifier is
"anonymous", no request is ever rejected by the quota (no 429), and the
usage mapping is left exactly as it started, so no entry keyed by
"anonymous" is ever created or incremented. -/
theorem anonymous_never_limited (env : StripeEnv) (today : String)
    (l : List (ChatRequest × CompletionOutcome)) (u : Usage)
    (hanon : ∀ p ∈ l, p.1.user_email.getD "anonymous" = "anonymous") :
    (chatFold env today l u).1 = u ∧
    ∀ r ∈ (chatFold env today l u).2, r.statusCode ≠ 429 := by
  induction l generalizing u with
  | nil => simp [chatFold]
  | cons p rest ih =>
    obtain ⟨req, comp⟩ := p
    have hp : req.user_email.getD "anonymous" = "anonymous" :=
      hanon _ (List.mem_cons_self _ _)
    have hrest := ih (chat env comp today req u).usage
      (fun q hq => hanon q (List.mem_cons_of_mem _ hq))
    have hstep : (chat env comp today req u).usage = u ∧
        (chat env comp today req u).response.statusCode ≠ 429 := by
      by_cases hm : req.messages = []
      · constructor
        · simp [chat, hm]
        · simp [chat, hm, ChatResponse.statusCode]
      · rw [chat_anonymous env comp today req u hp hm]
        refine ⟨rfl, ?_⟩
        cases comp <;> simp [completionResponse, ChatResponse.statusCode]
    constructor
    · simp only [chatFold]
      rw [hstep.1] at hrest ⊢
      exact hrest.1
    · intro r hr
      simp only [chatFold] at hr
      rcases List.mem_cons.mp hr with h | h
      · subst h
        exact hstep.2
      · rw [hstep.1] at hrest h
        exact hrest.2 r h

/-- Witness for C5: two concrete anonymous requests (one of them hitting a
failing completion) leave the usage mapping untouched and produce no 429. -/
theorem anonymous_never_limited_witness :
    (chatFold env0 "2026-10-12"
        [(⟨[⟨"user", "hello"⟩], "", 1024, none⟩, .ok "hi"),
         (⟨[⟨"user", "more"⟩], "", 1024, some "anonymous"⟩, .failure "boom")]
        [("a@x.com:2026-10-12", 10)]).1 = [("a@x.com:2026-10-12", 10)] ∧
    ∀ r ∈ (chatFold env0 "2026-10-12"
        [(⟨[⟨"user", "hello"⟩], "", 1024, none⟩, .ok "hi"),
         (⟨[⟨"user", "more"⟩], "", 1024, some "anonymous"⟩, .failure "boom")]
        [("a@x.com:2026-10-12", 10)]).2, r.statusCode ≠ 429 :=
  anonymous_never_limited env0 "2026-10-12"
    [(⟨[⟨"user", "hello"⟩], "", 1024, none⟩, .ok "hi"),
     (⟨[⟨"user", "more"⟩], "", 1024, some "anonymous"⟩, .failure "boom")]
    [("a@x.com:2026-10-12", 10)] (by decide)

/-- Claim C6: if the Stripe lookup raises (either the customer search or
the subscription search), check_user_has_subscription reports false rather
than propagating the error, so the request proceeds under the free tier. -/
theorem subscription_lookup_fails_closed (env : StripeEnv)
    (email msg : String) :
    (env.customerList email = .error msg →
      (check_user_has_subscription env email).1 = false) ∧
    (∀ c rest, env.customerList email = .ok (c :: rest) →
      env.subscriptionList c.id = .error msg →
      (check_user_has_subscription env email).1 = false) := by
  constructor
  · intro h
    by_cases ha : email = "anonymous" <;>
      simp [check_user_has_subscription, ha, h]
  · intro c rest h1 h2
    by_cases ha : email = "anonymous" <;>
      simp [check_user_has_subscription, ha, h1, h2]

/-- Witness for C6: against an environment whose customer lookup raises,
the subscription check reports false. -/
theorem subscription_lookup_fails_closed_witness :
    (check_user_has_subscription envErr "b@x.com").1 = false :=
  (subscription_lookup_fails_closed envErr "b@x.com" "network down").1 rfl

/-- Claim C7: usage is keyed by (user, calendar date).  A non-subscribed
user at the limit on day `yesterday` whose key for the new day `today` is
absent (count 0) is admitted with remaining = 9, and the new day's count
becomes 1. -/
theorem usage_scoped_per_day (env : StripeEnv) (today yesterday m e : String)
    (req : ChatRequest) (u : Usage)
    (he : req.user_email = some e) (hne : e ≠ "anonymous")
    (hmsg : req.messages ≠ [])
    (hsub : (check_user_has_subscription env e).1 = false)
    (_hlimit : 10 ≤ usageGet u (e ++ ":" ++ yesterday))
    (_hday : today ≠ yesterday)
    (hfresh : usageGet u (e ++ ":" ++ today) = 0) :
    (chat env (.ok m) today req u).response = .ok m (.num 9) ∧
    usageGet (chat env (.ok m) today req u).usage (e ++ ":" ++ today) = 1 := by
  rw [chat_gated_under env (.ok m) today req u e he hne hmsg hsub
    (by rw [hfresh]; decide)]
  constructor
  · rw [hfresh]
    rfl
  · rw [hfresh]
    exact usageGet_usageSet_self u _ _

/-- Witness for C7: a@x.com used 10 requests on 2026-10-11; the first
request on 2026-10-12 is admitted with 9 remaining. -/
theorem usage_scoped_per_day_witness :
    (chat env0 (.ok "hi") "2026-10-12" req0
        [("a@x.com:2026-10-11", 10)]).response = .ok "hi" (.num 9) ∧
    usageGet (chat env0 (.ok "hi") "2026-10-12" req0
        [("a@x.com:2026-10-11", 10)]).usage
      ("a@x.com" ++ ":" ++ "2026-10-12") = 1 :=
  usage_scoped_per_day env0 "2026-10-12" "2026-10-11" "hi" "a@x.com" req0
    [("a@x.com:2026-10-11", 10)] rfl (by decide) (by decide) rfl
    (by decide) (by decide) (by decide)

/-- Claim C8: a create-checkout request whose plan selector does not
resolve to a configured price identifier (for example plan = "gold") gets
status 400 with the invalid-plan response and the payment provider is not
contacted. -/
theorem create_checkout_invalid_plan (cfg : CheckoutConfig)
    (createSession : String → Option String → Except String String)
    (email plan : Option String)
    (hplan : pyFalsyStr (price_ids cfg (plan.getD "premium")) = true) :
    (create_checkout cfg createSession email plan).1 = .invalidPlan ∧
    (create_checkout cfg createSession email plan).1.statusCode = 400 ∧
    (create_checkout cfg createSession email plan).2 = [] := by
  simp [create_checkout, hplan, CheckoutResponse.statusCode]

/-- Witness for C8: with both prices configured, plan = "gold" is rejected
with 400 and no provider call. -/
theorem create_checkout_invalid_plan_witness :
    (create_checkout ⟨some "price_p", some "price_pv"⟩
        (fun pid _ => .ok ("https://checkout/" ++ pid))
        (some "a@x.com") (some "gold")).1 = .invalidPlan ∧
    (create_checkout ⟨some "price_p", some "price_pv"⟩
        (fun pid _ => .ok ("https://checkout/" ++ pid))
        (some "a@x.com") (some "gold")).1.statusCode = 400 ∧
    (create_checkout ⟨some "price_p", some "price_pv"⟩
        (fun pid _ => .ok ("https://checkout/" ++ pid))
        (some "a@x.com") (some "gold")).2 = [] :=
  create_checkout_invalid_plan ⟨some "price_p", some "price_pv"⟩
    (fun pid _ => .ok ("https://checkout/" ++ pid))
    (some "a@x.com") (some "gold") (by decide)

/-- Claim C9: when a customer record exists for the email but no active
subscription, /api/check-subscription reports remaining_messages = 0
regardless of the day's usage (the whole response is independent of the
usage mapping whenever a customer record exists); the computed allowance
10 − usage is reported only on the no-customer-record branch. -/
theorem check_subscription_customer_zero (env : StripeEnv)
    (today e : String) (u : Usage) (he : e ≠ "") :
    (∀ c rest, env.customerList e = .ok (c :: rest) →
      env.subscriptionList c.id = .ok [] →
      (check_subscription env today (some e) u).1.remainingMessages
        = some (.num 0)) ∧
    (∀ c rest u1 u2, env.customerList e = .ok (c :: rest) →
      check_subscription env today (some e) u1
        = check_subscription env today (some e) u2) ∧
    (env.customerList e = .ok [] →
      (check_subscription env today (some e) u).1.remainingMessages
        = some (.num (max 0 (10 - usageGet u (e ++ ":" ++ today))))) := by
  refine ⟨?_, ?_, ?_⟩
  · intro c rest h1 h2
    simp [check_subscription, he, h1, h2, SubscriptionResponse.remainingMessages]
  · intro c rest u1 u2 h1
    cases hs : env.subscriptionList c.id with
    | error m => simp [check_subscription, he, h1, hs]
    | ok subs => cases subs <;> simp [check_subscription, he, h1, hs]
  · intro h1
    simp [check_subscription, he, h1, SubscriptionResponse.remainingMessages]

/-- Witness for C9: c@x.com has a customer record, no active subscription,
and 4 uses today, yet check-subscription reports 0 remaining. -/
theorem check_subscription_customer_zero_witness :
    (check_subscription envCustomerNoSub "2026-10-12" (some "c@x.com")
        [("c@x.com:2026-10-12", 4)]).1.remainingMessages
      = some (.num 0) :=
  (check_subscription_customer_zero envCustomerNoSub "2026-10-12" "c@x.com"
    [("c@x.com:2026-10-12", 4)] (by decide)).1 ⟨"cus_2"⟩ [] rfl rfl

/-- Claim C10: a chat request whose body omits user_email defaults the
identifier to "anonymous": the request performs no Stripe lookup, is
admitted straight to the completion provider (the call list is exactly the
completion call), the usage mapping is untouched, and a successful
response reports remaining = "unlimited". -/
theorem chat_missing_email_defaults_anonymous (env : StripeEnv)
    (completion : CompletionOutcome) (today : String) (req : ChatRequest)
    (u : Usage) (he : req.user_email = none) (hmsg : req.messages ≠ []) :
    (chat env completion today req u).usage = u ∧
    (chat env completion today req u).calls = [.completionCreate] ∧
    (∀ t, completion = .ok t →
      (chat env completion today req u).response = .ok t .unlimited) := by
  have h : req.user_email.getD "anonymous" = "anonymous" := by
    rw [he]
    rfl
  rw [chat_anonymous env completion today req u h hmsg]
  refine ⟨rfl, rfl, ?_⟩
  intro t ht
  subst ht
  rfl

/-- Witness for C10: a concrete request without user_email makes only the
completion call, leaves usage untouched and succeeds with "unlimited". -/
theorem chat_missing_email_defaults_anonymous_witness :
    (chat env0 (.ok "hi") "2026-10-12"
        ⟨[⟨"user", "hello"⟩], "sys", 512, none⟩ []).usage = [] ∧
    (chat env0 (.ok "hi") "2026-10-12"
        ⟨[⟨"user", "hello"⟩], "sys", 512, none⟩ []).calls
      = [.completionCreate] ∧
    (∀ t, CompletionOutcome.ok "hi" = .ok t →
      (chat env0 (.ok "hi") "2026-10-12"
        ⟨[⟨"user", "hello"⟩], "sys", 512, none⟩ []).response
        = .ok t .unlimited) :=
  chat_missing_email_defaults_anonymous env0 (.ok "hi") "2026-10-12"
    ⟨[⟨"user", "hello"⟩], "sys", 512, none⟩ [] rfl (by decide)

end ArabicTutor
